import Mathlib

/-!
Verification of the request-layer API views of the peering manager
(`src/peering/api/views.py`) against its natural-language specification.

The views are thin controllers: each action resolves an object, calls a model
method and maps the result to an HTTP response (or raises `ServiceUnavailable`).
The model methods themselves (on `AutonomousSystem`, `InternetExchange`,
`Router`, session classes) are not part of the available source; where a claim
depends on their behaviour they are modelled from the specification and marked
as such, otherwise they appear as opaque parameters whose results the view maps.
-/

/-- HTTP request methods relevant to the API. -/
inductive HttpMethod where
  | GET | HEAD | OPTIONS | POST | PUT | PATCH | DELETE
deriving DecidableEq, Repr

/-- Embedding of `rest_framework.permissions.SAFE_METHODS = ("GET", "HEAD", "OPTIONS")`. -/
def SAFE_METHODS : List HttpMethod := [.GET, .HEAD, .OPTIONS]

/-- The methods routed to the `configure` / `configure-router` actions:
`methods=["get", "post", "put", "patch"]` in the `@action` decorators. -/
def configure_methods : List HttpMethod := [.GET, .POST, .PUT, .PATCH]

/-- Python truthiness of an optional string field (`None` and `""` are falsy). -/
def pyTruthyStr : Option String → Bool
  | none => false
  | some s => decide (s ≠ "")

/-- An incoming request as the views consume it: its method and the result of
`request.user.has_perm` for each permission string. -/
structure Request where
  method : HttpMethod
  userHasPerm : String → Bool

/-- A router as the views read it: only its `platform` field is consulted
(`if not router.platform`), an optional identifier string. -/
structure Router where
  platform : Option String
deriving DecidableEq, Repr

/-- An Internet exchange as the views read it: its optional managed router. -/
structure InternetExchange where
  router : Option Router
deriving DecidableEq, Repr

/-- Exceptions raised by the views: `utils.api.ServiceUnavailable(msg)` and a
template `RenderError` propagating out of `generate_configuration()`. -/
inductive PyError where
  | serviceUnavailable (msg : String)
  | renderError (msg : String)
deriving DecidableEq, Repr

/-- Outcome of a view action: a 200 `Response(body)`, a `Response(body, status)`
with an explicit error status, an `HttpResponseForbidden`, or a raised error. -/
inductive ViewResult (α : Type) where
  | response (body : α)
  | responseWithStatus (body : α) (status : Nat)
  | forbidden
  | raised (e : PyError)
deriving DecidableEq, Repr

/-- Body of the configuration deployment responses:
`{"changed": not error, "changes": changes, "error": error}`. -/
structure ConfigureBody where
  changed : Bool
  changes : String
  error : Option String
deriving DecidableEq, Repr

/-- Body of the `{"status": ...}` responses. -/
structure StatusBody where
  status : String
deriving DecidableEq, Repr

/-- Embedding of `RouterViewSet.configure` (views.py lines 246-262).
`generate` stands for `router.generate_configuration()` (raising on render
failure) and `set_napalm` for `router.set_napalm_configuration`, returning the
`(error, changes)` pair.  The second component of the result is the trace of
`(configuration, commit)` arguments of the device gateway calls made. -/
def RouterViewSet.configure (router : Router) (req : Request)
    (generate : Except String String)
    (set_napalm : String → Bool → Option String × String) :
    ViewResult ConfigureBody × List (String × Bool) :=
  if pyTruthyStr router.platform = false then
    (.raised (.serviceUnavailable "Unsupported router platform."), [])
  else if req.userHasPerm "peering.deploy_configuration_router" = false then
    (.forbidden, [])
  else
    match generate with
    | .error msg => (.raised (.renderError msg), [])
    | .ok config =>
        let commit := !decide (req.method ∈ SAFE_METHODS)
        let pushed := set_napalm config commit
        (.response ⟨!pyTruthyStr pushed.1, pushed.2, pushed.1⟩, [(config, commit)])

/-- Embedding of `InternetExchangeViewSet.configure_router` (views.py lines
183-202): checks the exchange has a router, checks the permission, then pushes
the generated configuration.  No platform check is performed on this path.
Result and gateway-call trace as in `RouterViewSet.configure`. -/
def InternetExchangeViewSet.configure_router (ix : InternetExchange) (req : Request)
    (generate : Except String String)
    (set_napalm : String → Bool → Option String × String) :
    ViewResult ConfigureBody × List (String × Bool) :=
  match ix.router with
  | none => (.raised (.serviceUnavailable "No router available."), [])
  | some _ =>
    if req.userHasPerm "peering.deploy_configuration_internetexchange" = false then
      (.forbidden, [])
    else
      match generate with
      | .error msg => (.raised (.renderError msg), [])
      | .ok config =>
          let commit := !decide (req.method ∈ SAFE_METHODS)
          let pushed := set_napalm config commit
          (.response ⟨!pyTruthyStr pushed.1, pushed.2, pushed.1⟩, [(config, commit)])

/-- Embedding of `BGPGroupViewSet.poll_peering_sessions` (views.py lines
113-120), parameterised by the boolean result of the underlying
`poll_peering_sessions()` model call. -/
def BGPGroupViewSet.poll_peering_sessions (success : Bool) : ViewResult StatusBody :=
  if success = false then
    .raised (.serviceUnavailable "Cannot update peering session states.")
  else
    .response ⟨"success"⟩

/-- Embedding of `InternetExchangeViewSet.poll_peering_sessions` (views.py
lines 204-211), parameterised by the result of the model call. -/
def InternetExchangeViewSet.poll_peering_sessions (success : Bool) : ViewResult StatusBody :=
  if success = false then
    .raised (.serviceUnavailable "Cannot update peering session states.")
  else
    .response ⟨"success"⟩

/-- Embedding of `InternetExchangeViewSet.available_peers` (views.py lines
154-162), parameterised by the list returned by `get_available_peers()`:
`if not available_peers: raise ServiceUnavailable("No peers found.")`. -/
def InternetExchangeViewSet.available_peers {α : Type} (peers : List α) :
    ViewResult (List α) :=
  if peers.isEmpty then
    .raised (.serviceUnavailable "No peers found.")
  else
    .response peers

/-- Body of the `{"result": result}` responses of the `clear` actions. -/
structure ClearBody (ρ : Type) where
  result : ρ
deriving DecidableEq, Repr

/-- A direct peering session as its `clear` view reads it: its router. -/
structure DirectPeeringSession where
  router : Option Router
deriving DecidableEq, Repr

/-- An IX peering session as its `clear` view reads it: its exchange. -/
structure InternetExchangePeeringSession where
  internet_exchange : InternetExchange
deriving DecidableEq, Repr

/-- Embedding of `DirectPeeringSessionViewSet.clear` (views.py lines 139-146).
`clear_bgp_session` stands for `router.clear_bgp_session(session)`; the second
component records the routers on which it was invoked. -/
def DirectPeeringSessionViewSet.clear {ρ : Type} (s : DirectPeeringSession)
    (clear_bgp_session : Router → DirectPeeringSession → ρ) :
    ViewResult (ClearBody ρ) × List Router :=
  match s.router with
  | none => (.raised (.serviceUnavailable "No router available to clear session"), [])
  | some router => (.response ⟨clear_bgp_session router s⟩, [router])

/-- Embedding of `InternetExchangePeeringSessionViewSet.clear` (views.py lines
224-231): the router is resolved through the session's exchange. -/
def InternetExchangePeeringSessionViewSet.clear {ρ : Type}
    (s : InternetExchangePeeringSession)
    (clear_bgp_session : Router → InternetExchangePeeringSession → ρ) :
    ViewResult (ClearBody ρ) × List Router :=
  match s.internet_exchange.router with
  | none => (.raised (.serviceUnavailable "No router available to clear session"), [])
  | some router => (.response ⟨clear_bgp_session router s⟩, [router])

/-- A registry network record as the synchronization reads it. -/
structure NetworkRecord where
  name : String
  irr_as_set : Option String
deriving DecidableEq, Repr

/-- An autonomous system as the synchronization touches it: its AS number and
its registry-linked fields. -/
structure AutonomousSystem where
  asn : Nat
  name : String
  irr_as_set : Option String
  peeringdb_record : Option NetworkRecord
deriving DecidableEq, Repr

/-- Modelled from the spec: `AutonomousSystem.synchronize_with_peeringdb`
(in `peering/models.py`, not under `src/`) refreshes the AS's registry-linked
fields from the registry lookup and reports success; it returns `false`
exactly when no registry record exists for the AS number. -/
def AutonomousSystem.synchronize_with_peeringdb
    (registry : Nat → Option NetworkRecord) (a : AutonomousSystem) :
    Bool × AutonomousSystem :=
  match registry a.asn with
  | none => (false, a)
  | some record =>
      (true, { a with name := record.name, irr_as_set := record.irr_as_set,
                      peeringdb_record := some record })

/-- Body of the `synchronize-with-peeringdb` responses: either
`{"status": "synchronized"}` or `{"error": "peeringdb record not found"}`. -/
inductive SyncBody where
  | statusMsg (s : String)
  | errorMsg (s : String)
deriving DecidableEq, Repr

/-- Embedding of `AutonomousSystemViewSet.synchronize_with_peeringdb`
(views.py lines 61-75), parameterised by the boolean success of the model
call: success yields `Response({"status": "synchronized"})`, failure yields
`Response({"error": "peeringdb record not found"}, status=404)`. -/
def AutonomousSystemViewSet.synchronize_with_peeringdb (success : Bool) :
    ViewResult SyncBody :=
  if success then
    .response (.statusMsg "synchronized")
  else
    .responseWithStatus (.errorMsg "peeringdb record not found") 404

/-- The natural key of an IX peering session candidate:
(exchange, peer AS number, peer IP). -/
structure SessionKey where
  exchange : Nat
  peer_asn : Nat
  ip : String
deriving DecidableEq, Repr

/-- One discovery step: materialise the candidate unless a session with that
exact key already exists. -/
def addCandidate (acc : List SessionKey) (k : SessionKey) : List SessionKey :=
  if k ∈ acc then acc else acc ++ [k]

/-- Modelled from the spec: `AutonomousSystem.find_potential_ix_peering_sessions`
(in `peering/models.py`, not under `src/`).  For each (exchange, peer AS,
peer IP) candidate reported by the registry on a shared exchange, a new IX
peering session is created unless one with that exact key already exists. -/
def AutonomousSystem.find_potential_ix_peering_sessions
    (registry : List SessionKey) (existing : List SessionKey) : List SessionKey :=
  registry.foldl addCandidate existing

/-- Embedding of `AutonomousSystemViewSet.find_potential_ix_peering_sessions`
(views.py lines 93-100): runs discovery on the stored sessions and returns
`Response({"status": "done"})` unconditionally. -/
def AutonomousSystemViewSet.find_potential_ix_peering_sessions
    (registry : List SessionKey) (existing : List SessionKey) :
    List SessionKey × ViewResult StatusBody :=
  (AutonomousSystem.find_potential_ix_peering_sessions registry existing,
   .response ⟨"done"⟩)

/-- Accumulator of the router import: created-AS and created-session counts,
the AS numbers modelled so far, the session (peer ASN, IP) pairs present, and
the ignored AS numbers. -/
structure ImportState where
  as_created : Nat
  session_created : Nat
  known_as : List Nat
  existing : List (Nat × String)
  ignored : List Nat
deriving DecidableEq, Repr

/-- One step of the router import over an observed (peer ASN, IP) session:
an already-modelled AS gets the session created if missing; a resolvable but
missing AS is created together with the session; an unresolvable AS is
recorded as ignored and skipped. -/
def importStep (resolve : Nat → Bool) (st : ImportState) (p : Nat × String) :
    ImportState :=
  if p.1 ∈ st.known_as then
    if p ∈ st.existing then st
    else { st with session_created := st.session_created + 1,
                   existing := st.existing ++ [p] }
  else if resolve p.1 then
    { st with as_created := st.as_created + 1,
              known_as := st.known_as ++ [p.1],
              session_created := st.session_created + 1,
              existing := st.existing ++ [p] }
  else
    { st with ignored := st.ignored ++ [p.1] }

/-- Modelled from the spec: `InternetExchange.import_peering_sessions_from_router`
(in `peering/models.py`, not under `src/`).  `fetch` is the router's observed
session list (`none` when the router state cannot be fetched, the only failure
of the batch); `resolve` says whether a peer AS number resolves in the
registry.  Sessions observed but not modelled are created, missing ASes are
created when resolvable, unresolvable peer ASes are reported in the ignored
list, and the result is the (created-AS count, created-session count,
ignored ASes) triple. -/
def InternetExchange.import_peering_sessions_from_router
    (resolve : Nat → Bool) (fetch : Option (List (Nat × String)))
    (known_as : List Nat) (existing : List (Nat × String)) :
    Option (Nat × Nat × List Nat) :=
  match fetch with
  | none => none
  | some observed =>
      let st := observed.foldl (importStep resolve) ⟨0, 0, known_as, existing, []⟩
      some (st.as_created, st.session_created, st.ignored)

/-- Body of the `import-peering-sessions` success response:
`{"autonomous-system-count": _, "peering-session-count": _,
"ignored-autonomous-systems": _}`. -/
structure ImportBody where
  autonomous_system_count : Nat
  peering_session_count : Nat
  ignored_autonomous_systems : List Nat
deriving DecidableEq, Repr

/-- Embedding of `InternetExchangeViewSet.import_peering_sessions` (views.py
lines 164-175), parameterised by the result of the model call: a falsy result
raises `ServiceUnavailable`, otherwise the triple is rendered as the three
response components. -/
def InternetExchangeViewSet.import_peering_sessions
    (result : Option (Nat × Nat × List Nat)) : ViewResult ImportBody :=
  match result with
  | none => .raised (.serviceUnavailable "Cannot import peering sessions from router.")
  | some (a, s, ignored) => .response ⟨a, s, ignored⟩

/-- C2: for both scopes (BGP group and Internet exchange) the poll view raises
`ServiceUnavailable "Cannot update peering session states."` exactly when the
underlying `poll_peering_sessions()` call reports failure, returns the
`{"status": "success"}` response otherwise, and the two scope kinds implement
the identical contract. -/
theorem poll_sessions_error_contract :
    (∀ success : Bool,
      BGPGroupViewSet.poll_peering_sessions success
        = InternetExchangeViewSet.poll_peering_sessions success)
    ∧ BGPGroupViewSet.poll_peering_sessions false
        = .raised (.serviceUnavailable "Cannot update peering session states.")
    ∧ BGPGroupViewSet.poll_peering_sessions true = .response ⟨"success"⟩
    ∧ InternetExchangeViewSet.poll_peering_sessions false
        = .raised (.serviceUnavailable "Cannot update peering session states.")
    ∧ InternetExchangeViewSet.poll_peering_sessions true = .response ⟨"success"⟩ :=
  ⟨fun s => by cases s <;> rfl, rfl, rfl, rfl, rfl⟩

/-- C3 counterexample: when no registry data exists (the available-peer list is
empty) the `available-peers` view raises `ServiceUnavailable "No peers found."`;
it does not return the empty result. -/
theorem available_peers_empty_is_error :
    InternetExchangeViewSet.available_peers ([] : List Nat)
      = .raised (.serviceUnavailable "No peers found.")
    ∧ InternetExchangeViewSet.available_peers ([] : List Nat)
      ≠ .response ([] : List Nat) :=
  ⟨rfl, by decide⟩

/-- C3 amended: the `available-peers` operation fails with
`ServiceUnavailable "No peers found."` exactly when no peer candidates exist,
and returns the candidate list exactly when it is non-empty. -/
theorem available_peers_raises_iff_empty {α : Type} (peers : List α) :
    (InternetExchangeViewSet.available_peers peers
        = .raised (.serviceUnavailable "No peers found.") ↔ peers = [])
    ∧ (InternetExchangeViewSet.available_peers peers = .response peers ↔ peers ≠ []) := by
  unfold InternetExchangeViewSet.available_peers
  cases peers <;> simp

/-- C5: synchronization succeeds exactly when a registry record exists for the
AS number; the view renders success as the `"synchronized"` response and the
missing record as the 404 `"peeringdb record not found"` response, and the
registry-linked record field is refreshed from the registry on success and left
untouched otherwise. -/
theorem synchronize_success_iff_record
    (registry : Nat → Option NetworkRecord) (a : AutonomousSystem) :
    ((AutonomousSystem.synchronize_with_peeringdb registry a).1 = true
        ↔ registry a.asn ≠ none)
    ∧ (AutonomousSystemViewSet.synchronize_with_peeringdb
          (AutonomousSystem.synchronize_with_peeringdb registry a).1
        = .response (.statusMsg "synchronized") ↔ registry a.asn ≠ none)
    ∧ (AutonomousSystemViewSet.synchronize_with_peeringdb
          (AutonomousSystem.synchronize_with_peeringdb registry a).1
        = .responseWithStatus (.errorMsg "peeringdb record not found") 404
        ↔ registry a.asn = none)
    ∧ ((AutonomousSystem.synchronize_with_peeringdb registry a).2.peeringdb_record
        = (registry a.asn).elim a.peeringdb_record some) := by
  unfold AutonomousSystem.synchronize_with_peeringdb
    AutonomousSystemViewSet.synchronize_with_peeringdb
  cases h : registry a.asn <;> simp [h]

/-- C6: when configuration generation fails (a `RenderError` propagates out of
`generate_configuration()`), neither deployment entry point makes any device
gateway call: the trace of `set_napalm_configuration` calls is empty. -/
theorem render_error_no_gateway_push (r : Router) (ix : InternetExchange)
    (req : Request) (msg : String)
    (set_napalm : String → Bool → Option String × String) :
    (RouterViewSet.configure r req (.error msg) set_napalm).2 = []
    ∧ (InternetExchangeViewSet.configure_router ix req (.error msg) set_napalm).2 = [] := by
  constructor
  · unfold RouterViewSet.configure
    split
    · rfl
    · split <;> rfl
  · obtain ⟨ir⟩ := ix
    cases ir
    · rfl
    · cases h : req.userHasPerm "peering.deploy_configuration_internetexchange" <;>
        simp [InternetExchangeViewSet.configure_router, h]

/-- C7: for both session kinds, the `clear` view raises the no-router
`ServiceUnavailable` error and never invokes `clear_bgp_session` exactly when
the owning group/exchange has no router, and otherwise responds with the
result of `clear_bgp_session` on that router. -/
theorem clear_session_router_contract {ρ : Type}
    (fd : Router → DirectPeeringSession → ρ)
    (fx : Router → InternetExchangePeeringSession → ρ) (r : Router) :
    DirectPeeringSessionViewSet.clear ⟨none⟩ fd
      = (.raised (.serviceUnavailable "No router available to clear session"), [])
    ∧ DirectPeeringSessionViewSet.clear ⟨some r⟩ fd
      = (.response ⟨fd r ⟨some r⟩⟩, [r])
    ∧ InternetExchangePeeringSessionViewSet.clear ⟨⟨none⟩⟩ fx
      = (.raised (.serviceUnavailable "No router available to clear session"), [])
    ∧ InternetExchangePeeringSessionViewSet.clear ⟨⟨some r⟩⟩ fx
      = (.response ⟨fx r ⟨⟨some r⟩⟩⟩, [r]) :=
  ⟨rfl, rfl, rfl, rfl⟩

/-- C1: for both deployment entry points, under the methods the actions route
(`get`, `post`, `put`, `patch`), the commit flag passed to the device gateway
push equals `true` exactly when the request method is not the safe GET method,
that flag agrees with `request.method not in SAFE_METHODS`, and the response
always carries the changes reported by the gateway — so a GET request pushes
with `commit = false` and still returns the would-be changes. -/
theorem deploy_commit_iff_unsafe_method
    (req : Request) (r : Router) (ix : InternetExchange) (cfg : String)
    (set_napalm : String → Bool → Option String × String)
    (hm : req.method ∈ configure_methods)
    (hplat : pyTruthyStr r.platform = true)
    (hp1 : req.userHasPerm "peering.deploy_configuration_router" = true)
    (hp2 : req.userHasPerm "peering.deploy_configuration_internetexchange" = true)
    (hix : ix.router = some r) :
    (RouterViewSet.configure r req (.ok cfg) set_napalm).2
        = [(cfg, decide (req.method ≠ .GET))]
    ∧ (InternetExchangeViewSet.configure_router ix req (.ok cfg) set_napalm).2
        = [(cfg, decide (req.method ≠ .GET))]
    ∧ (decide (req.method ≠ HttpMethod.GET) = true ↔ req.method ∉ SAFE_METHODS)
    ∧ (RouterViewSet.configure r req (.ok cfg) set_napalm).1
        = .response ⟨!pyTruthyStr (set_napalm cfg (decide (req.method ≠ .GET))).1,
                     (set_napalm cfg (decide (req.method ≠ .GET))).2,
                     (set_napalm cfg (decide (req.method ≠ .GET))).1⟩
    ∧ (InternetExchangeViewSet.configure_router ix req (.ok cfg) set_napalm).1
        = .response ⟨!pyTruthyStr (set_napalm cfg (decide (req.method ≠ .GET))).1,
                     (set_napalm cfg (decide (req.method ≠ .GET))).2,
                     (set_napalm cfg (decide (req.method ≠ .GET))).1⟩ := by
  obtain ⟨m, perms⟩ := req
  dsimp only at hp1 hp2
  simp only [configure_methods, List.mem_cons, List.not_mem_nil, or_false] at hm
  have hcommit : (!decide (m ∈ SAFE_METHODS)) = decide (m ≠ HttpMethod.GET) := by
    rcases hm with rfl | rfl | rfl | rfl <;> decide
  have hiff : decide (m ≠ HttpMethod.GET) = true ↔ m ∉ SAFE_METHODS := by
    rcases hm with rfl | rfl | rfl | rfl <;> decide
  refine ⟨?_, ?_, hiff, ?_, ?_⟩ <;> rw [← hcommit] <;>
    simp [RouterViewSet.configure, InternetExchangeViewSet.configure_router,
      hplat, hp1, hp2, hix]

/-- Witness for C1 at a concrete GET request: both entry points push with
`commit = false` and return the would-be diff reported by the gateway. -/
theorem deploy_commit_iff_unsafe_method_witness :
    (RouterViewSet.configure ⟨some "junos"⟩ ⟨.GET, fun _ => true⟩ (.ok "cfg")
        (fun _ _ => (none, "diff"))).2 = [("cfg", false)]
    ∧ (InternetExchangeViewSet.configure_router ⟨some ⟨some "junos"⟩⟩
        ⟨.GET, fun _ => true⟩ (.ok "cfg") (fun _ _ => (none, "diff"))).2
        = [("cfg", false)]
    ∧ (decide (HttpMethod.GET ≠ HttpMethod.GET) = true
        ↔ HttpMethod.GET ∉ SAFE_METHODS)
    ∧ (RouterViewSet.configure ⟨some "junos"⟩ ⟨.GET, fun _ => true⟩ (.ok "cfg")
        (fun _ _ => (none, "diff"))).1 = .response ⟨true, "diff", none⟩
    ∧ (InternetExchangeViewSet.configure_router ⟨some ⟨some "junos"⟩⟩
        ⟨.GET, fun _ => true⟩ (.ok "cfg") (fun _ _ => (none, "diff"))).1
        = .response ⟨true, "diff", none⟩ :=
  deploy_commit_iff_unsafe_method ⟨.GET, fun _ => true⟩ ⟨some "junos"⟩
    ⟨some ⟨some "junos"⟩⟩ "cfg" (fun _ _ => (none, "diff"))
    (by decide) rfl rfl rfl rfl

/-- C4 counterexample: pushing through an InternetExchange whose router has no
platform identifier does not fail fast with the unsupported-platform error:
the device gateway call is still made (here with `commit = true`). -/
theorem ix_push_without_platform_calls_gateway :
    (InternetExchangeViewSet.configure_router ⟨some ⟨none⟩⟩ ⟨.POST, fun _ => true⟩
        (.ok "cfg") (fun _ _ => (none, "diff"))).2 = [("cfg", true)]
    ∧ (InternetExchangeViewSet.configure_router ⟨some ⟨none⟩⟩ ⟨.POST, fun _ => true⟩
        (.ok "cfg") (fun _ _ => (none, "diff"))).1
      ≠ .raised (.serviceUnavailable "Unsupported router platform.") :=
  ⟨rfl, by decide⟩

/-- C4 amended: the platform fail-fast precondition holds for pushing via a
Router: with an absent platform identifier, `RouterViewSet.configure` raises
`ServiceUnavailable "Unsupported router platform."` and makes no device
gateway call; the InternetExchange push path performs no such check. -/
theorem router_configure_platform_fail_fast (router : Router) (req : Request)
    (generate : Except String String)
    (set_napalm : String → Bool → Option String × String)
    (h : pyTruthyStr router.platform = false) :
    RouterViewSet.configure router req generate set_napalm
      = (.raised (.serviceUnavailable "Unsupported router platform."), []) := by
  simp [RouterViewSet.configure, h]

/-- Witness for the amended C4 at a concrete platform-less router. -/
theorem router_configure_platform_fail_fast_witness :
    pyTruthyStr (Router.mk none).platform = false
    ∧ RouterViewSet.configure ⟨none⟩ ⟨.GET, fun _ => true⟩ (.ok "cfg")
        (fun _ _ => (none, ""))
      = (.raised (.serviceUnavailable "Unsupported router platform."), []) :=
  ⟨rfl, router_configure_platform_fail_fast ⟨none⟩ ⟨.GET, fun _ => true⟩ (.ok "cfg")
      (fun _ _ => (none, "")) rfl⟩

/-- C10: in every deployment response of either entry point, the `changed`
field is the Python boolean negation of the `error` value: a falsy error gives
`changed = true` regardless of the reported diff, a truthy error gives
`changed = false`. -/
theorem changed_eq_not_error
    (r : Router) (ix : InternetExchange) (req : Request)
    (generate : Except String String)
    (set_napalm : String → Bool → Option String × String)
    (body bodyIx : ConfigureBody)
    (h1 : (RouterViewSet.configure r req generate set_napalm).1 = .response body)
    (h2 : (InternetExchangeViewSet.configure_router ix req generate set_napalm).1
        = .response bodyIx) :
    body.changed = !pyTruthyStr body.error
    ∧ bodyIx.changed = !pyTruthyStr bodyIx.error := by
  constructor
  · unfold RouterViewSet.configure at h1
    split at h1
    · simp at h1
    · split at h1
      · simp at h1
      · cases generate with
        | error msg => simp at h1
        | ok cfg =>
            dsimp only at h1
            injection h1 with h
            subst h
            rfl
  · obtain ⟨ir⟩ := ix
    cases ir with
    | none => simp [InternetExchangeViewSet.configure_router] at h2
    | some r2 =>
        unfold InternetExchangeViewSet.configure_router at h2
        dsimp only at h2
        split at h2
        · simp at h2
        · cases generate with
          | error msg => simp at h2
          | ok cfg =>
              dsimp only at h2
              injection h2 with h
              subst h
              rfl

/-- Witness for C10 at a concrete push whose gateway reports no error and an
empty diff: the response still carries `changed = true`. -/
theorem changed_eq_not_error_witness :
    (RouterViewSet.configure ⟨some "junos"⟩ ⟨.POST, fun _ => true⟩ (.ok "cfg")
        (fun _ _ => (none, ""))).1 = .response ⟨true, "", none⟩
    ∧ (InternetExchangeViewSet.configure_router ⟨some ⟨some "junos"⟩⟩
        ⟨.POST, fun _ => true⟩ (.ok "cfg") (fun _ _ => (none, ""))).1
        = .response ⟨true, "", none⟩
    ∧ (true = !pyTruthyStr none ∧ true = !pyTruthyStr none) :=
  ⟨rfl, rfl,
   changed_eq_not_error ⟨some "junos"⟩ ⟨some ⟨some "junos"⟩⟩ ⟨.POST, fun _ => true⟩
     (.ok "cfg") (fun _ _ => (none, "")) ⟨true, "", none⟩ ⟨true, "", none⟩ rfl rfl⟩

theorem mem_addCandidate_of_mem {acc : List SessionKey} {x : SessionKey}
    (k : SessionKey) (h : x ∈ acc) : x ∈ addCandidate acc k := by
  unfold addCandidate
  split
  · exact h
  · exact List.mem_append_left _ h

theorem mem_addCandidate_self (acc : List SessionKey) (k : SessionKey) :
    k ∈ addCandidate acc k := by
  unfold addCandidate
  split
  · assumption
  · exact List.mem_append_right _ (List.mem_cons_self k [])

theorem mem_foldl_addCandidate_of_mem_acc (l : List SessionKey) :
    ∀ (acc : List SessionKey) (x : SessionKey), x ∈ acc →
      x ∈ l.foldl addCandidate acc := by
  induction l with
  | nil => intro acc x h; exact h
  | cons a t ih => intro acc x h; exact ih _ _ (mem_addCandidate_of_mem a h)

theorem mem_foldl_addCandidate_of_mem (l : List SessionKey) :
    ∀ (acc : List SessionKey) (x : SessionKey), x ∈ l →
      x ∈ l.foldl addCandidate acc := by
  induction l with
  | nil => intro acc x h; cases h
  | cons a t ih =>
      intro acc x h
      rcases List.mem_cons.mp h with rfl | h2
      · exact mem_foldl_addCandidate_of_mem_acc t _ _ (mem_addCandidate_self acc x)
      · exact ih _ _ h2

theorem foldl_addCandidate_eq_of_subset (l : List SessionKey) :
    ∀ acc : List SessionKey, (∀ x ∈ l, x ∈ acc) → l.foldl addCandidate acc = acc := by
  induction l with
  | nil => intro acc _; rfl
  | cons a t ih =>
      intro acc h
      have ha : addCandidate acc a = acc := by
        unfold addCandidate
        rw [if_pos (h a (List.mem_cons_self a t))]
      rw [List.foldl_cons, ha]
      exact ih acc (fun x hx => h x (List.mem_cons_of_mem a hx))

theorem addCandidate_nodup {acc : List SessionKey} (k : SessionKey)
    (h : acc.Nodup) : (addCandidate acc k).Nodup := by
  unfold addCandidate
  split
  · exact h
  · rename_i hk
    refine List.Nodup.append h (List.nodup_singleton k) ?_
    intro x hx hxk
    rcases List.mem_singleton.mp hxk with rfl
    exact hk hx

theorem foldl_addCandidate_nodup (l : List SessionKey) :
    ∀ acc : List SessionKey, acc.Nodup → (l.foldl addCandidate acc).Nodup := by
  induction l with
  | nil => intro acc h; exact h
  | cons a t ih => intro acc h; exact ih _ (addCandidate_nodup a h)

/-- C8: running discovery a second time on the state produced by a first run
creates nothing new (the candidate-session set is the same as after one run),
the resulting session list stays free of duplicate (exchange, peer AS, IP)
keys, and the view responds `{"status": "done"}` on each invocation. -/
theorem find_potential_sessions_idempotent
    (registry existing : List SessionKey) (h : existing.Nodup) :
    AutonomousSystem.find_potential_ix_peering_sessions registry
        (AutonomousSystem.find_potential_ix_peering_sessions registry existing)
      = AutonomousSystem.find_potential_ix_peering_sessions registry existing
    ∧ (AutonomousSystem.find_potential_ix_peering_sessions registry existing).Nodup
    ∧ (AutonomousSystemViewSet.find_potential_ix_peering_sessions registry existing).2
        = .response ⟨"done"⟩
    ∧ (AutonomousSystemViewSet.find_potential_ix_peering_sessions registry
          (AutonomousSystemViewSet.find_potential_ix_peering_sessions registry
            existing).1).2
        = .response ⟨"done"⟩ := by
  refine ⟨?_, ?_, rfl, rfl⟩
  · exact foldl_addCandidate_eq_of_subset registry _
      (fun x hx => mem_foldl_addCandidate_of_mem registry existing x hx)
  · exact foldl_addCandidate_nodup registry existing h

/-- Witness for C8 at the spec's example: one registry candidate on exchange
IX-1 to AS 64501 at 192.0.2.10 and no existing sessions. -/
theorem find_potential_sessions_idempotent_witness :
    (([] : List SessionKey).Nodup)
    ∧ (AutonomousSystem.find_potential_ix_peering_sessions
          [⟨1, 64501, "192.0.2.10"⟩]
          (AutonomousSystem.find_potential_ix_peering_sessions
            [⟨1, 64501, "192.0.2.10"⟩] [])
        = AutonomousSystem.find_potential_ix_peering_sessions
            [⟨1, 64501, "192.0.2.10"⟩] []
      ∧ (AutonomousSystem.find_potential_ix_peering_sessions
            [⟨1, 64501, "192.0.2.10"⟩] []).Nodup
      ∧ (AutonomousSystemViewSet.find_potential_ix_peering_sessions
            [⟨1, 64501, "192.0.2.10"⟩] []).2 = .response ⟨"done"⟩
      ∧ (AutonomousSystemViewSet.find_potential_ix_peering_sessions
            [⟨1, 64501, "192.0.2.10"⟩]
            (AutonomousSystemViewSet.find_potential_ix_peering_sessions
              [⟨1, 64501, "192.0.2.10"⟩] []).1).2 = .response ⟨"done"⟩) :=
  ⟨List.nodup_nil,
   find_potential_sessions_idempotent [⟨1, 64501, "192.0.2.10"⟩] [] List.nodup_nil⟩

theorem importStep_ignored_mono (resolve : Nat → Bool) (st : ImportState)
    (p : Nat × String) (x : Nat) (h : x ∈ st.ignored) :
    x ∈ (importStep resolve st p).ignored := by
  unfold importStep
  split
  · split
    · exact h
    · exact h
  · split
    · exact h
    · exact List.mem_append_left _ h

theorem foldl_importStep_ignored_mono (resolve : Nat → Bool)
    (l : List (Nat × String)) :
    ∀ (st : ImportState) (x : Nat), x ∈ st.ignored →
      x ∈ (l.foldl (importStep resolve) st).ignored := by
  induction l with
  | nil => intro st x h; exact h
  | cons p t ih =>
      intro st x h
      exact ih _ _ (importStep_ignored_mono resolve st p x h)

theorem importStep_known_inv (resolve : Nat → Bool) (st : ImportState)
    (p : Nat × String) (K : List Nat)
    (h : ∀ x ∈ st.known_as, x ∈ K ∨ resolve x = true) :
    ∀ x ∈ (importStep resolve st p).known_as, x ∈ K ∨ resolve x = true := by
  unfold importStep
  split
  · split
    · exact h
    · exact h
  · split
    · rename_i hres
      intro x hx
      rcases List.mem_append.mp hx with hx2 | hx2
      · exact h x hx2
      · rcases List.mem_singleton.mp hx2 with rfl
        exact Or.inr hres
    · exact h

theorem foldl_importStep_unresolved_ignored (resolve : Nat → Bool)
    (l : List (Nat × String)) (K : List Nat) :
    ∀ (st : ImportState) (asn : Nat) (ip : String),
      (asn, ip) ∈ l → resolve asn = false → asn ∉ K →
      (∀ x ∈ st.known_as, x ∈ K ∨ resolve x = true) →
      asn ∈ (l.foldl (importStep resolve) st).ignored := by
  induction l with
  | nil => intro st asn ip h; cases h
  | cons p t ih =>
      intro st asn ip hmem hres hK hinv
      rcases List.mem_cons.mp hmem with heq | hmem2
      · have hnk : ¬ asn ∈ st.known_as := by
          intro hx
          rcases hinv asn hx with h1 | h1
          · exact hK h1
          · rw [hres] at h1
            cases h1
        cases heq
        rw [List.foldl_cons]
        apply foldl_importStep_ignored_mono
        unfold importStep
        rw [if_neg hnk, if_neg (by simp [hres])]
        exact List.mem_append_right _ (List.mem_cons_self asn [])
      · rw [List.foldl_cons]
        exact ih _ asn ip hmem2 hres hK (importStep_known_inv resolve st p K hinv)

/-- C9: when the router import succeeds, the view renders exactly the three
components (created-AS count, created-session count, ignored ASes), and a peer
AS observed on the router that cannot be resolved in the registry ends up in
the ignored list while the batch still succeeds. -/
theorem import_single_bad_as_ignored
    (resolve : Nat → Bool) (observed : List (Nat × String)) (known : List Nat)
    (existing : List (Nat × String)) (asn : Nat) (ip : String)
    (hmem : (asn, ip) ∈ observed) (hres : resolve asn = false)
    (hknown : asn ∉ known) :
    ∃ a s ign,
      InternetExchange.import_peering_sessions_from_router resolve (some observed)
          known existing = some (a, s, ign)
      ∧ InternetExchangeViewSet.import_peering_sessions
          (InternetExchange.import_peering_sessions_from_router resolve
            (some observed) known existing) = .response ⟨a, s, ign⟩
      ∧ asn ∈ ign := by
  refine ⟨_, _, _, rfl, rfl, ?_⟩
  exact foldl_importStep_unresolved_ignored resolve observed known
    ⟨0, 0, known, existing, []⟩ asn ip hmem hres hknown (fun x hx => Or.inl hx)

/-- Witness for C9: one observed session whose peer AS 64501 resolves nowhere
in the registry; the batch succeeds and reports 64501 as ignored. -/
theorem import_single_bad_as_ignored_witness :
    ((64501, "192.0.2.10") ∈ [((64501 : Nat), "192.0.2.10")])
    ∧ (((fun _ => false) : Nat → Bool) 64501 = false)
    ∧ ((64501 : Nat) ∉ ([] : List Nat))
    ∧ (∃ a s ign,
        InternetExchange.import_peering_sessions_from_router (fun _ => false)
            (some [((64501 : Nat), "192.0.2.10")]) [] [] = some (a, s, ign)
        ∧ InternetExchangeViewSet.import_peering_sessions
            (InternetExchange.import_peering_sessions_from_router (fun _ => false)
              (some [((64501 : Nat), "192.0.2.10")]) [] []) = .response ⟨a, s, ign⟩
        ∧ 64501 ∈ ign) :=
  ⟨List.mem_cons_self _ _, rfl, List.not_mem_nil _,
   import_single_bad_as_ignored (fun _ => false) [((64501 : Nat), "192.0.2.10")]
     [] [] 64501 "192.0.2.10" (List.mem_cons_self _ _) rfl (List.not_mem_nil _)⟩
